import Mathlib

/-!
Verification of the tag-based similarity search service (Architecture-AI).

The development shallowly embeds the Python source:
  * `api/schemas.py` / `domain/value_objects.py` — the `ImageFeatures` /
    `IdentifiedObject` data model;
  * `api/models.py` — `Product.get_all_tags`, `Product.calculate_similarity_score`;
  * `api/infrastructure/repositories.py` — the `DjangoProductRepository`
    methods `_calculate_similarity_score` and `find_similar_products`;
  * `api/views.py` (two variants) — the find-similar response shaping;
  * `api/infrastructure/ai_services.py` / `api/image_generation_service.py` —
    the mock feature fallback, prompt combination and generation output handling.

Python strings are Lean `String`s; `str.lower()` / `str.strip()` are embedded
character-wise (`pyLower` / `pyStrip`); Python `set`s of tags are `Finset String`;
Python `list.sort(key=score, reverse=True)` (a stable sort) is `List.mergeSort`
with the reversed comparison on scores.
-/

/-- Embedding of Python `str.lower()`: lowercase every character. -/
def pyLower (s : String) : String := ⟨s.data.map Char.toLower⟩

/-- Embedding of Python `str.strip()`: drop whitespace from both ends. -/
def pyStrip (s : String) : String :=
  ⟨((s.data.dropWhile Char.isWhitespace).reverse.dropWhile Char.isWhitespace).reverse⟩

/-- Embedding of `tag.lower().strip()`, the normalization applied to every tag. -/
def normalizeTag (t : String) : String := pyStrip (pyLower t)

/-- Embedding of the Python filter `if tag and tag.strip()`: the tag is nonempty
and not whitespace-only. -/
def tagTruthy (t : String) : Bool := t != "" && pyStrip t != ""

/-- Embedding of `[tag.lower().strip() for tag in tags if tag and tag.strip()]`. -/
def cleanTags (tags : List String) : List String :=
  (tags.filter tagTruthy).map normalizeTag

/-- Value object of `schemas.py` / `domain/value_objects.py`: an identified
object with its `object_type` and `attributes`. -/
structure IdentifiedObject where
  object_type : String
  attributes : List String
deriving DecidableEq, Repr

/-- Value object of `schemas.py` / `domain/value_objects.py`: the complete
feature analysis of an image. -/
structure ImageFeatures where
  main_objects : List IdentifiedObject
  overall_style : List String
deriving DecidableEq, Repr

/-- The raw tag list collected from a feature record, in the order of the source:
for each entry of `main_objects` its `object_type` followed by its
`attributes`, then every entry of `overall_style`. -/
def rawFeatureTags (f : ImageFeatures) : List String :=
  (f.main_objects.map fun o => o.object_type :: o.attributes).flatten ++ f.overall_style

namespace Product

/-- Embedding of `Product.get_all_tags` (models.py). A `none` features field
models a falsy (absent or empty) JSON blob, for which the source returns `[]`.
Otherwise the source returns `list(set(...))` of the cleaned tags, embedded as
the `Finset` of the cleaned tag list. -/
def get_all_tags (features : Option ImageFeatures) : Finset String :=
  match features with
  | none => ∅
  | some f => (cleanTags (rawFeatureTags f)).toFinset

/-- Embedding of `Product.calculate_similarity_score` (models.py): the size of
the intersection of the tag set of the product with the cleaned query tags. -/
def calculate_similarity_score (features : Option ImageFeatures)
    (query_tags : List String) : Nat :=
  let product_tags := get_all_tags features
  let query_tags_lower := cleanTags query_tags
  (product_tags ∩ query_tags_lower.toFinset).card

end Product

/-- The pure similarity scoring of two already-normalized tag sets: the
cardinality of their intersection (the final two lines of both Python scoring
functions, once each side has been made a set). -/
def tagScore (a b : Finset String) : Nat := (a ∩ b).card

namespace DjangoProductRepository

/-- Embedding of `DjangoProductRepository._calculate_similarity_score`
(infrastructure/repositories.py): falsy features score 0; otherwise the raw
tags are collected, cleaned, and the two sides intersected as sets. -/
def calculate_similarity_score (features : Option ImageFeatures)
    (query_tags : List String) : Nat :=
  match features with
  | none => 0
  | some f =>
    let product_tags := cleanTags (rawFeatureTags f)
    let query_tags_lower := cleanTags query_tags
    (product_tags.toFinset ∩ query_tags_lower.toFinset).card

end DjangoProductRepository

/-- A stored product row as the repository scan sees it. -/
structure StoredProduct where
  id : Nat
  source_url : String
  image_filename : String
  features : Option ImageFeatures
  created_at : String
deriving DecidableEq, Repr

/-- One entry of the ranked result list built by
`DjangoProductRepository.find_similar_products`. -/
structure ScoredEntry where
  id : Nat
  source_url : String
  image_filename : String
  image_url : String
  similarity_score : Nat
  features : Option ImageFeatures
  created_at : String
deriving DecidableEq, Repr

namespace DjangoProductRepository

/-- Embedding of `DjangoProductRepository.find_similar_products`
(infrastructure/repositories.py): score every product, keep only scores `> 0`,
stable-sort descending by score, truncate to `limit`. `mediaURL` stands for
`settings.MEDIA_URL`. -/
def find_similar_products (mediaURL : String) (products : List StoredProduct)
    (query_tags : List String) (limit : Nat) : List ScoredEntry :=
  if products.isEmpty then []
  else
    let scored_products := products.filterMap fun p =>
      let similarity_score := calculate_similarity_score p.features query_tags
      if similarity_score > 0 then
        some { id := p.id, source_url := p.source_url,
               image_filename := p.image_filename,
               image_url := mediaURL ++ p.image_filename,
               similarity_score := similarity_score,
               features := p.features, created_at := p.created_at }
      else none
    (scored_products.mergeSort fun a b => b.similarity_score ≤ a.similarity_score).take limit

end DjangoProductRepository

/-- The JSON body of a find-similar response, as far as the claims are
concerned: the HTTP status, the `success` key (`none` when the variant omits
it), the `similar_products` list and the `message`. -/
structure FindSimilarResponse where
  status : Nat
  success : Option Bool
  similar_products : List ScoredEntry
  message : String
deriving Repr

/-- The ranking loop inlined in both `find_similar_products` views: score every
product with `Product.calculate_similarity_score`, keep positive scores,
stable-sort descending, take the top 10, then format each entry. -/
def viewRankedProducts (mediaURL : String) (products : List StoredProduct)
    (query_tags : List String) : List ScoredEntry :=
  let scored_products := products.filterMap fun p =>
    let score := Product.calculate_similarity_score p.features query_tags
    if score > 0 then some (p, score) else none
  let top_products := (scored_products.mergeSort fun a b => b.2 ≤ a.2).take 10
  top_products.map fun item =>
    { id := item.1.id, source_url := item.1.source_url,
      image_filename := item.1.image_filename,
      image_url := mediaURL ++ item.1.image_filename,
      similarity_score := item.2,
      features := item.1.features, created_at := item.1.created_at }

/-- How the query image of a find-similar request arrived in the
backend-architecture view (views.py lines 290-335): as a multipart file
upload, or by URL in a JSON body. The Python local `image_url` is assigned
only on the URL path (line 324); the upload path assigns only
`query_image_source` (line 311). -/
inductive QueryImageSource where
  | uploadedFile (filename : String)
  | imageURL (url : String)
deriving DecidableEq, Repr

/-- The outcome of a view invocation: a JSON body response, or the error
response produced by the generic `except Exception` handler. -/
inductive ViewOutcome where
  | response (r : FindSimilarResponse)
  | errorResponse (status : Nat) (error : String)
deriving Repr

/-- Embedding of the `find_similar_products` view of
`backend-architecture/api/views.py` (after a successful image analysis). The
empty-catalog branch (lines 365-373) builds `query_image_url: image_url`, and
on the multipart-upload path that local is unbound, so the branch raises
`UnboundLocalError`, which the handler at lines 413-416 turns into a 500
error body with the prefix of line 415 (the embedded interpreter text is
abbreviated here; the theorems use only the status and that prefix). On the
URL path the branch answers 200 with `success: False`, empty results and a
"no products found" message. A non-empty catalog answers 200 with
`success: True` and the ranked list on either path (that branch reads only
`query_image_source`, assigned on both paths). -/
def backendFindSimilarView (mediaURL : String) (source : QueryImageSource)
    (products : List StoredProduct) (query_tags : List String) : ViewOutcome :=
  if products.isEmpty then
    match source with
    | .uploadedFile _ =>
      .errorResponse 500 ("Failed to find similar products: " ++
        "cannot access local variable image_url where it is not associated with a value")
    | .imageURL _ =>
      .response
        { status := 200, success := some false, similar_products := [],
          message := "No products found in database" }
  else
    let similar_products := viewRankedProducts mediaURL products query_tags
    .response
      { status := 200, success := some true, similar_products := similar_products,
        message := "Found " ++ toString similar_products.length ++ " similar products" }

/-- Embedding of the `find_similar_products` view of the earlier variant
(`api/views.py`, after a successful image analysis): an empty catalog answers
200 with no `success` key at all, empty results and the same message;
otherwise 200 with `success: True` and the ranked list. -/
def legacyFindSimilarView (mediaURL : String) (products : List StoredProduct)
    (query_tags : List String) : FindSimilarResponse :=
  if products.isEmpty then
    { status := 200, success := none, similar_products := [],
      message := "No products found in database" }
  else
    let similar_products := viewRankedProducts mediaURL products query_tags
    { status := 200, success := some true, similar_products := similar_products,
      message := "Found " ++ toString similar_products.length ++ " similar products" }

/-- The fixed mock feature set returned by both image-analysis services when no
AI credential is configured (`ai_services.py` / `ai_service.py`). -/
def mockImageFeatures : ImageFeatures :=
  { main_objects :=
      [ { object_type := "chair", attributes := ["wooden", "modern", "minimalist"] },
        { object_type := "table", attributes := ["glass", "contemporary", "sleek"] } ],
    overall_style := ["modern", "minimalist", "contemporary"] }

/-- Embedding of `OpenRouterImageAnalysisService.analyze_image` /
`AIImageAnalysisService.get_image_features` at the level the claims need: when
no API key is available the fixed mock features are returned successfully;
otherwise the outcome is whatever the remote call chain produces (`remote`,
a parameter standing for the unmodelled network interaction). -/
def analyze_image (api_key_available : Bool)
    (remote : List Nat → Except String ImageFeatures)
    (image_bytes : List Nat) : Except String ImageFeatures :=
  if !api_key_available then .ok mockImageFeatures
  else remote image_bytes

/-- The fixed architectural expertise preamble
(`_get_default_architectural_prompt`, identical in both generation services). -/
def default_architectural_prompt : String :=
  "Professional architectural interior design, modern space planning, " ++
  "sophisticated lighting design, functional furniture arrangement, " ++
  "harmonious color palette, premium materials and finishes, " ++
  "clean lines and geometric forms, optimal spatial flow, " ++
  "contemporary architectural elements, realistic rendering quality, " ++
  "natural lighting integration, professional photography style"

/-- Embedding of `_combine_prompts` (identical in
`image_generation_service.py` and `infrastructure/ai_services.py`). -/
def combine_prompts (user_prompt : String) : String :=
  let default_prompt := default_architectural_prompt
  let user_prompt_clean := pyStrip user_prompt
  if user_prompt_clean = "" then default_prompt
  else default_prompt ++ ", " ++ user_prompt_clean

/-- Result value of the generation services (`ImageGenerationResult` of
`domain/value_objects.py`; the tuple-returning variant carries the same data). -/
structure ImageGenerationResult where
  success : Bool
  generated_image_urls : List String
  error_message : String
deriving DecidableEq, Repr

/-- Embedding of `ReplicateImageGenerationService.generate_image` /
`AIImageGenerationService.generate_architectural_image`: unavailability of the
client library or the credential is answered without consulting the remote
call; otherwise the remote outcome `run` (a parameter standing for
`client.run`, the list of output items on success) is filtered — the item at
index 0 (the depth map) is discarded — and an empty remainder is a
"no images generated" failure. -/
def generate_image (replicate_available : Bool) (api_token_configured : Bool)
    (run : Except String (List String)) : ImageGenerationResult :=
  if !(replicate_available && api_token_configured) then
    if !replicate_available then
      { success := false, generated_image_urls := [],
        error_message := "Replicate package not installed. Please install it with: pip install replicate" }
    else
      { success := false, generated_image_urls := [],
        error_message := "Replicate API token not configured" }
  else
    match run with
    | .error e =>
      { success := false, generated_image_urls := [],
        error_message := "Image generation failed: " ++ e }
    | .ok output =>
      if output.length > 0 then
        let generated_images :=
          (output.enum.filterMap fun item =>
            if item.1 = 0 then none else some item.2)
        if generated_images.isEmpty then
          { success := false, generated_image_urls := [],
            error_message := "No architectural images generated by the AI model" }
        else
          { success := true, generated_image_urls := generated_images,
            error_message := "" }
      else
        { success := false, generated_image_urls := [],
          error_message := "No output generated by the AI model" }

/-- The feature record stored for product A in end-to-end scenario 1 of the
spec. -/
def scenarioOneFeatures : ImageFeatures :=
  { main_objects := [ { object_type := "chair", attributes := ["wooden", "modern"] } ],
    overall_style := ["minimalist"] }

theorem django_score_eq_tagScore (features : Option ImageFeatures)
    (query_tags : List String) :
    DjangoProductRepository.calculate_similarity_score features query_tags =
      tagScore (Product.get_all_tags features) (cleanTags query_tags).toFinset := by
  cases features with
  | none =>
    simp [DjangoProductRepository.calculate_similarity_score, Product.get_all_tags,
      tagScore]
  | some f => rfl

theorem product_score_eq_tagScore (features : Option ImageFeatures)
    (query_tags : List String) :
    Product.calculate_similarity_score features query_tags =
      tagScore (Product.get_all_tags features) (cleanTags query_tags).toFinset := by
  cases features <;> rfl

/-- C1: for the features of every stored product and every query tag list, the
repository similarity score is exactly the cardinality of the intersection of
the normalized product tag set with the normalized query tag set (a `Nat`,
hence non-negative); on the stored features of scenario 1 and the query tags
`chair, wooden` both scoring implementations give exactly 2. -/
theorem C1_score_is_intersection_cardinality :
    (∀ (features : Option ImageFeatures) (query_tags : List String),
      DjangoProductRepository.calculate_similarity_score features query_tags =
        tagScore (Product.get_all_tags features) (cleanTags query_tags).toFinset) ∧
    DjangoProductRepository.calculate_similarity_score (some scenarioOneFeatures)
      ["chair", "wooden"] = 2 ∧
    Product.calculate_similarity_score (some scenarioOneFeatures)
      ["chair", "wooden"] = 2 := by
  refine ⟨django_score_eq_tagScore, ?_, ?_⟩ <;> decide

/-- C6: the similarity score is symmetric in its two tag-set arguments — the
score in the code is the intersection cardinality `tagScore` of the two normalized
tag sets, and `tagScore A B = tagScore B A` for all tag sets, even though call
sites designate one side the query and the other the candidate. -/
theorem C6_score_symmetric :
    (∀ (features : Option ImageFeatures) (query_tags : List String),
      Product.calculate_similarity_score features query_tags =
        tagScore (Product.get_all_tags features) (cleanTags query_tags).toFinset) ∧
    ∀ (A B : Finset String), tagScore A B = tagScore B A := by
  refine ⟨product_score_eq_tagScore, fun A B => ?_⟩
  simp [tagScore, Finset.inter_comm]

/-- C10: the two duplicated similarity implementations are equivalent — for
every feature record and every query tag list, `Product.calculate_similarity_score`
(which deduplicates the product tags via `get_all_tags` before intersecting)
and `DjangoProductRepository._calculate_similarity_score` (which intersects
without pre-deduplication) return the same integer. -/
theorem C10_implementations_equivalent (features : Option ImageFeatures)
    (query_tags : List String) :
    Product.calculate_similarity_score features query_tags =
      DjangoProductRepository.calculate_similarity_score features query_tags := by
  rw [product_score_eq_tagScore, django_score_eq_tagScore]

theorem tagScore_insert_left (A B : Finset String) (t : String) :
    tagScore A B ≤ tagScore (insert t A) B ∧
    (tagScore A B < tagScore (insert t A) B ↔ t ∈ B ∧ t ∉ A) := by
  by_cases hB : t ∈ B
  · by_cases hA : t ∈ A
    · rw [Finset.insert_eq_self.mpr hA]
      simp [hA]
    · have hinter : insert t A ∩ B = insert t (A ∩ B) :=
        Finset.insert_inter_of_mem hB
      have hnot : t ∉ A ∩ B := by simp [hA]
      have hcard : tagScore (insert t A) B = tagScore A B + 1 := by
        simp [tagScore, hinter, Finset.card_insert_of_not_mem hnot]
      constructor
      · omega
      · constructor
        · intro _; exact ⟨hB, hA⟩
        · intro _; omega
  · have hinter : insert t A ∩ B = A ∩ B := Finset.insert_inter_of_not_mem hB
    simp [tagScore, hinter, hB]

/-- C5: the similarity score is monotone — adding a tag to either normalized
tag set never decreases the intersection score, and strictly increases it
exactly when the added tag is in the other set and not already in the set it
is added to. -/
theorem C5_score_monotone (A B : Finset String) (t : String) :
    tagScore A B ≤ tagScore (insert t A) B ∧
    tagScore A B ≤ tagScore A (insert t B) ∧
    (tagScore A B < tagScore (insert t A) B ↔ t ∈ B ∧ t ∉ A) ∧
    (tagScore A B < tagScore A (insert t B) ↔ t ∈ A ∧ t ∉ B) := by
  have hBA : ∀ (X Y : Finset String), tagScore X Y = tagScore Y X := by
    intro X Y; simp [tagScore, Finset.inter_comm]
  obtain ⟨h1, h2⟩ := tagScore_insert_left A B t
  obtain ⟨h3, h4⟩ := tagScore_insert_left B A t
  refine ⟨h1, ?_, h2, ?_⟩
  · rw [hBA A B, hBA A (insert t B)]; exact h3
  · rw [hBA A B, hBA A (insert t B)]; exact h4

theorem tagTruthy_iff (t : String) : tagTruthy t = true ↔ pyStrip t ≠ "" := by
  constructor
  · intro h
    simp only [tagTruthy, Bool.and_eq_true, bne_iff_ne, ne_eq] at h
    exact h.2
  · intro h
    have ht : t ≠ "" := by
      intro he
      subst he
      exact h rfl
    simp only [tagTruthy, Bool.and_eq_true, bne_iff_ne, ne_eq]
    exact ⟨ht, h⟩

theorem mem_get_all_tags (f : ImageFeatures) (s : String) :
    s ∈ Product.get_all_tags (some f) ↔
      ((∃ o ∈ f.main_objects,
          (pyStrip o.object_type ≠ "" ∧ s = normalizeTag o.object_type) ∨
          ∃ a ∈ o.attributes, pyStrip a ≠ "" ∧ s = normalizeTag a) ∨
       ∃ t ∈ f.overall_style, pyStrip t ≠ "" ∧ s = normalizeTag t) := by
  simp only [Product.get_all_tags, cleanTags, List.mem_toFinset, List.mem_map,
    List.mem_filter, rawFeatureTags, List.mem_append, List.mem_flatten,
    List.mem_cons, tagTruthy_iff]
  constructor
  · rintro ⟨t, ⟨hmem, htruthy⟩, rfl⟩
    rcases hmem with ⟨l, ⟨o, ho, rfl⟩, hl⟩ | hstyle
    · rcases List.mem_cons.mp hl with rfl | ha
      · exact Or.inl ⟨o, ho, Or.inl ⟨htruthy, rfl⟩⟩
      · exact Or.inl ⟨o, ho, Or.inr ⟨t, ha, htruthy, rfl⟩⟩
    · exact Or.inr ⟨t, hstyle, htruthy, rfl⟩
  · rintro (⟨o, ho, ⟨htruthy, rfl⟩ | ⟨a, ha, htruthy, rfl⟩⟩ | ⟨t, ht, htruthy, rfl⟩)
    · exact ⟨o.object_type, ⟨Or.inl ⟨_, ⟨o, ho, rfl⟩, List.mem_cons_self _ _⟩, htruthy⟩, rfl⟩
    · exact ⟨a, ⟨Or.inl ⟨_, ⟨o, ho, rfl⟩, List.mem_cons_of_mem _ ha⟩, htruthy⟩, rfl⟩
    · exact ⟨t, ⟨Or.inr ht, htruthy⟩, rfl⟩

/-- C2: tag extraction yields exactly the set of lowercased-and-trimmed forms of
every `object_type`, every attribute of every `main_objects` entry and every
`overall_style` entry that is neither empty nor whitespace-only (a deduplicated
set by construction); absent or empty features yield the empty set, not an
error, and both similarity scores against any query are then 0. -/
theorem C2_tag_extraction :
    (∀ (f : ImageFeatures) (s : String),
      s ∈ Product.get_all_tags (some f) ↔
        ((∃ o ∈ f.main_objects,
            (pyStrip o.object_type ≠ "" ∧ s = normalizeTag o.object_type) ∨
            ∃ a ∈ o.attributes, pyStrip a ≠ "" ∧ s = normalizeTag a) ∨
         ∃ t ∈ f.overall_style, pyStrip t ≠ "" ∧ s = normalizeTag t)) ∧
    Product.get_all_tags none = ∅ ∧
    ∀ (query_tags : List String),
      Product.calculate_similarity_score none query_tags = 0 ∧
      DjangoProductRepository.calculate_similarity_score none query_tags = 0 := by
  refine ⟨mem_get_all_tags, rfl, fun query_tags => ⟨?_, rfl⟩⟩
  simp [Product.calculate_similarity_score, Product.get_all_tags]
theorem mergeSort_entry_sorted (l : List ScoredEntry) :
    List.Pairwise (fun a b => b.similarity_score ≤ a.similarity_score)
      (l.mergeSort fun a b => b.similarity_score ≤ a.similarity_score) := by
  have h := @List.sorted_mergeSort ScoredEntry
    (fun a b : ScoredEntry => decide (b.similarity_score ≤ a.similarity_score))
    (fun a b c hab hbc => by
      simp only [decide_eq_true_eq] at *
      omega)
    (fun a b => by
      simp only [Bool.or_eq_true, decide_eq_true_eq]
      exact Nat.le_total _ _)
    l
  exact h.imp fun hab => by simpa using hab

theorem mergeSort_pair_sorted (l : List (StoredProduct × Nat)) :
    List.Pairwise (fun a b => b.2 ≤ a.2) (l.mergeSort fun a b => b.2 ≤ a.2) := by
  have h := @List.sorted_mergeSort (StoredProduct × Nat)
    (fun a b : StoredProduct × Nat => decide (b.2 ≤ a.2))
    (fun a b c hab hbc => by
      simp only [decide_eq_true_eq] at *
      omega)
    (fun a b => by
      simp only [Bool.or_eq_true, decide_eq_true_eq]
      exact Nat.le_total _ _)
    l
  exact h.imp fun hab => by simpa using hab

theorem find_similar_products_pos (mediaURL : String) (products : List StoredProduct)
    (query_tags : List String) (limit : Nat) :
    ∀ e ∈ DjangoProductRepository.find_similar_products mediaURL products query_tags limit,
      0 < e.similarity_score := by
  intro e he
  unfold DjangoProductRepository.find_similar_products at he
  split at he
  · simp at he
  · replace he := List.take_subset _ _ he
    rw [List.mem_mergeSort, List.mem_filterMap] at he
    obtain ⟨p, hp, hsome⟩ := he
    by_cases hpos :
        0 < DjangoProductRepository.calculate_similarity_score p.features query_tags
    · simp only [gt_iff_lt, hpos, if_true, Option.some.injEq] at hsome
      subst hsome
      exact hpos
    · simp only [gt_iff_lt, hpos, if_false] at hsome
      exact absurd hsome (by simp)

theorem find_similar_products_sorted (mediaURL : String) (products : List StoredProduct)
    (query_tags : List String) (limit : Nat) :
    List.Pairwise (fun a b => b.similarity_score ≤ a.similarity_score)
      (DjangoProductRepository.find_similar_products mediaURL products query_tags limit) := by
  unfold DjangoProductRepository.find_similar_products
  split
  · exact List.Pairwise.nil
  · exact (mergeSort_entry_sorted _).sublist (List.take_sublist _ _)

theorem find_similar_products_length (mediaURL : String) (products : List StoredProduct)
    (query_tags : List String) (limit : Nat) :
    (DjangoProductRepository.find_similar_products mediaURL products query_tags limit).length
      ≤ limit := by
  unfold DjangoProductRepository.find_similar_products
  split
  · simp
  · simp only [List.length_take]
    omega

theorem viewRankedProducts_pos (mediaURL : String) (products : List StoredProduct)
    (query_tags : List String) :
    ∀ e ∈ viewRankedProducts mediaURL products query_tags, 0 < e.similarity_score := by
  intro e he
  unfold viewRankedProducts at he
  rw [List.mem_map] at he
  obtain ⟨item, hitem, rfl⟩ := he
  replace hitem := List.take_subset _ _ hitem
  rw [List.mem_mergeSort, List.mem_filterMap] at hitem
  obtain ⟨p, hp, hsome⟩ := hitem
  by_cases hpos : 0 < Product.calculate_similarity_score p.features query_tags
  · simp only [gt_iff_lt, hpos, if_true, Option.some.injEq] at hsome
    subst hsome
    exact hpos
  · simp only [gt_iff_lt, hpos, if_false] at hsome
    exact absurd hsome (by simp)

theorem viewRankedProducts_sorted (mediaURL : String) (products : List StoredProduct)
    (query_tags : List String) :
    List.Pairwise (fun a b => b.similarity_score ≤ a.similarity_score)
      (viewRankedProducts mediaURL products query_tags) := by
  unfold viewRankedProducts
  rw [List.pairwise_map]
  exact ((mergeSort_pair_sorted _).sublist (List.take_sublist _ _)).imp fun h => h

theorem viewRankedProducts_length (mediaURL : String) (products : List StoredProduct)
    (query_tags : List String) :
    (viewRankedProducts mediaURL products query_tags).length ≤ 10 := by
  unfold viewRankedProducts
  simp only [List.length_map, List.length_take]
  omega

/-- C3: for every catalog, query tag list and limit, the ranked result list of
the repository (and of the ranking inlined in the views, whose limit is the
10 of the call sites) contains no entry with similarity score 0 or less, is in
non-increasing order of similarity score, and has length at most the limit. -/
theorem C3_ranking_properties (mediaURL : String) (products : List StoredProduct)
    (query_tags : List String) (limit : Nat) :
    (∀ e ∈ DjangoProductRepository.find_similar_products mediaURL products query_tags limit,
      0 < e.similarity_score) ∧
    List.Pairwise (fun a b => b.similarity_score ≤ a.similarity_score)
      (DjangoProductRepository.find_similar_products mediaURL products query_tags limit) ∧
    (DjangoProductRepository.find_similar_products mediaURL products query_tags limit).length
      ≤ limit ∧
    (∀ e ∈ viewRankedProducts mediaURL products query_tags, 0 < e.similarity_score) ∧
    List.Pairwise (fun a b => b.similarity_score ≤ a.similarity_score)
      (viewRankedProducts mediaURL products query_tags) ∧
    (viewRankedProducts mediaURL products query_tags).length ≤ 10 :=
  ⟨find_similar_products_pos mediaURL products query_tags limit,
   find_similar_products_sorted mediaURL products query_tags limit,
   find_similar_products_length mediaURL products query_tags limit,
   viewRankedProducts_pos mediaURL products query_tags,
   viewRankedProducts_sorted mediaURL products query_tags,
   viewRankedProducts_length mediaURL products query_tags⟩
theorem enumFrom_skip_filterMap (l : List String) (n : Nat) :
    ((l.enumFrom (n + 1)).filterMap fun item =>
      if item.1 = 0 then none else some item.2) = l := by
  induction l generalizing n with
  | nil => rfl
  | cons a t ih => simp [List.enumFrom, List.filterMap_cons, ih]

theorem skip_first_eq_drop (l : List String) :
    (l.enum.filterMap fun item => if item.1 = 0 then none else some item.2) =
      l.drop 1 := by
  cases l with
  | nil => rfl
  | cons a t =>
    show ((a :: t).enumFrom 0).filterMap _ = t
    simp only [List.enumFrom, List.filterMap_cons]
    simpa using enumFrom_skip_filterMap t 0

theorem generate_image_ok_cases (output : List String) :
    (generate_image true true (.ok output)).generated_image_urls = output.drop 1 ∧
    ((generate_image true true (.ok output)).success = true ↔ output.drop 1 ≠ []) ∧
    (output ≠ [] → output.drop 1 = [] →
      generate_image true true (.ok output) =
        { success := false, generated_image_urls := [],
          error_message := "No architectural images generated by the AI model" }) := by
  cases output with
  | nil => exact ⟨rfl, by simp [generate_image], fun h _ => absurd rfl h⟩
  | cons a t =>
    have hskip : (((a :: t).enum).filterMap fun item =>
        if item.1 = 0 then none else some item.2) = t := by
      simpa using skip_first_eq_drop (a :: t)
    by_cases ht : t = []
    · subst ht
      refine ⟨?_, ?_, fun _ _ => ?_⟩ <;>
        simp [generate_image, List.enum, List.enumFrom]
    · refine ⟨?_, ?_, fun _ hd => absurd (by simpa using hd) ht⟩ <;>
        simp [generate_image, hskip, ht]

/-- C9: when the generation service is available and the model call returns an
output list, the element at index 0 is discarded and the rest are the results;
an empty remainder is reported as the "no images generated" failure; when the
client library or the credential is absent the result is an unavailability
failure that does not depend on the remote call at all, and its message is
distinct from the "no images generated" message. -/
theorem C9_generation_output (output : List String)
    (r r2 : Except String (List String)) :
    (generate_image true true (.ok output)).generated_image_urls = output.drop 1 ∧
    ((generate_image true true (.ok output)).success = true ↔ output.drop 1 ≠ []) ∧
    (output ≠ [] → output.drop 1 = [] →
      generate_image true true (.ok output) =
        { success := false, generated_image_urls := [],
          error_message := "No architectural images generated by the AI model" }) ∧
    generate_image false true r = generate_image false true r2 ∧
    (generate_image false true r).success = false ∧
    (generate_image false true r).error_message =
      "Replicate package not installed. Please install it with: pip install replicate" ∧
    generate_image true false r = generate_image true false r2 ∧
    (generate_image true false r).success = false ∧
    (generate_image true false r).error_message = "Replicate API token not configured" ∧
    "Replicate package not installed. Please install it with: pip install replicate" ≠
      "No architectural images generated by the AI model" ∧
    "Replicate API token not configured" ≠
      "No architectural images generated by the AI model" := by
  obtain ⟨h1, h2, h3⟩ := generate_image_ok_cases output
  exact ⟨h1, h2, h3, rfl, rfl, rfl, rfl, rfl, rfl, by decide, by decide⟩

/-- C7: with no AI credential configured, image analysis returns, for every
input image and whatever the unmodelled remote behaviour would do, the same
fixed mock feature set as a successful result (not an error): exactly two
objects — chair with attributes wooden/modern/minimalist and table with
attributes glass/contemporary/sleek — and the three overall-style tags
modern, minimalist, contemporary. -/
theorem C7_mock_features (remote : List Nat → Except String ImageFeatures)
    (image_bytes : List Nat) :
    analyze_image false remote image_bytes = .ok mockImageFeatures ∧
    mockImageFeatures.main_objects =
      [ { object_type := "chair", attributes := ["wooden", "modern", "minimalist"] },
        { object_type := "table", attributes := ["glass", "contemporary", "sleek"] } ] ∧
    mockImageFeatures.overall_style = ["modern", "minimalist", "contemporary"] ∧
    mockImageFeatures.main_objects.length = 2 ∧
    mockImageFeatures.overall_style.length = 3 :=
  ⟨rfl, rfl, rfl, rfl, rfl⟩

/-- C8: the combined generation prompt always begins with the fixed
architectural expertise preamble; a whitespace-only (or empty) user prompt
yields exactly the preamble with no trailing separator, and otherwise the
preamble followed by ", " and the trimmed user prompt. -/
theorem C8_combine_prompts (user_prompt : String) :
    (∃ rest : String, combine_prompts user_prompt = default_architectural_prompt ++ rest) ∧
    (pyStrip user_prompt = "" → combine_prompts user_prompt = default_architectural_prompt) ∧
    (pyStrip user_prompt ≠ "" →
      combine_prompts user_prompt =
        default_architectural_prompt ++ ", " ++ pyStrip user_prompt) := by
  by_cases h : pyStrip user_prompt = ""
  · refine ⟨⟨"", ?_⟩, fun _ => ?_, fun hne => absurd h hne⟩ <;>
      simp [combine_prompts, h]
  · refine ⟨⟨", " ++ pyStrip user_prompt, ?_⟩, fun he => absurd he h, fun _ => ?_⟩
    · simp [combine_prompts, h, String.append_assoc]
    · simp [combine_prompts, h]

/-- C4 counterexample: with an empty catalog the backend-architecture variant
does not report `success: true` — on the URL query path it answers 200 with
`success: false`, and on the multipart-upload path it does not answer
successfully at all: the unbound `image_url` local raises and the handler
returns a 500 error body; the earlier variant omits the `success` key. -/
theorem C4_counterexample :
    backendFindSimilarView "/media/" (QueryImageSource.imageURL "http://example.com/q.jpg")
        [] ["chair"] =
      ViewOutcome.response
        { status := 200, success := some false, similar_products := [],
          message := "No products found in database" } ∧
    backendFindSimilarView "/media/" (QueryImageSource.uploadedFile "q.jpg") [] ["chair"] =
      ViewOutcome.errorResponse 500 ("Failed to find similar products: " ++
        "cannot access local variable image_url where it is not associated with a value") ∧
    (legacyFindSimilarView "/media/" [] ["chair"]).success = none := by
  exact ⟨rfl, rfl, rfl⟩

/-- C4 (amended): in the earlier view variant, and in the backend-architecture
variant when the query image arrived by URL, an empty catalog (or an empty
ranking) yields an HTTP 200 response with an empty `similar_products` list and
a "no products found" message — but on an empty catalog the response does not
report `success: true` (the backend variant reports `success: false`, the
earlier variant omits the key); in the backend-architecture variant on the
multipart-upload path, an empty catalog instead hits the unbound `image_url`
local and the generic handler returns a 500 error body; a non-empty catalog
yields 200 with `success: true` on either path, with an empty list and
"Found 0 similar products" when the ranking is empty. -/
theorem C4_empty_results_response (mediaURL url filename : String)
    (query_tags : List String) :
    (backendFindSimilarView mediaURL (QueryImageSource.imageURL url) [] query_tags =
      ViewOutcome.response
        { status := 200, success := some false, similar_products := [],
          message := "No products found in database" }) ∧
    (∃ err : String,
      backendFindSimilarView mediaURL (QueryImageSource.uploadedFile filename) [] query_tags =
        ViewOutcome.errorResponse 500 ("Failed to find similar products: " ++ err)) ∧
    ((legacyFindSimilarView mediaURL [] query_tags).status = 200 ∧
     (legacyFindSimilarView mediaURL [] query_tags).similar_products = [] ∧
     (legacyFindSimilarView mediaURL [] query_tags).message =
       "No products found in database" ∧
     (legacyFindSimilarView mediaURL [] query_tags).success = none) ∧
    (∀ (source : QueryImageSource) (products : List StoredProduct), products ≠ [] →
      backendFindSimilarView mediaURL source products query_tags =
        ViewOutcome.response
          { status := 200, success := some true,
            similar_products := viewRankedProducts mediaURL products query_tags,
              message := "Found " ++
              toString (viewRankedProducts mediaURL products query_tags).length ++
              " similar products" }) ∧
    (∀ products : List StoredProduct, products ≠ [] →
      (legacyFindSimilarView mediaURL products query_tags).status = 200 ∧
      (legacyFindSimilarView mediaURL products query_tags).success = some true) ∧
    (∀ products : List StoredProduct, products ≠ [] →
      viewRankedProducts mediaURL products query_tags = [] →
      (legacyFindSimilarView mediaURL products query_tags).similar_products = [] ∧
      (legacyFindSimilarView mediaURL products query_tags).message =
        "Found 0 similar products") := by
  refine ⟨rfl,
    ⟨"cannot access local variable image_url where it is not associated with a value", rfl⟩,
    ⟨rfl, rfl, rfl, rfl⟩, ?_, ?_, ?_⟩
  · intro source products hne
    cases products with
    | nil => exact absurd rfl hne
    | cons p ps => rfl
  · intro products hne
    cases products with
    | nil => exact absurd rfl hne
    | cons p ps => simp [legacyFindSimilarView]
  · intro products hne hrank
    cases products with
    | nil => exact absurd rfl hne
    | cons p ps =>
      refine ⟨by simp [legacyFindSimilarView, hrank], ?_⟩
      have : ("Found " ++ toString (0 : Nat) ++ " similar products") =
          "Found 0 similar products" := by decide
      simpa [legacyFindSimilarView, hrank] using this
